import Mathlib

/-!
Verification of the kivent `gamesystems.py` module: the `GameSystem` base
class (component lifecycle), the `GameMap` system (current-map slot) and the
`GameView` system (camera follow / scroll clamping).  Numeric state is
modelled over `ℚ`; Python exceptions are modelled by `Option` results.
-/

/-- `GameView.lock_scroll` (gamesystems.py lines 140-156), translated
literally: given the current `camera_pos`, the current map's `map_size` and
the viewport's `size` and `pos`, clamp the proposed delta
`(distance_x, distance_y)` axis by axis with an if/elif/else chain. -/
def lock_scroll (camera_pos map_size size pos : ℚ × ℚ)
    (distance_x distance_y : ℚ) : ℚ × ℚ :=
  let dx :=
    if camera_pos.1 + distance_x > pos.1 then
      pos.1 - camera_pos.1
    else if camera_pos.1 + map_size.1 + distance_x ≤ pos.1 + size.1 then
      pos.1 + size.1 - camera_pos.1 - map_size.1
    else
      distance_x
  let dy :=
    if camera_pos.2 + distance_y > pos.2 then
      pos.2 - camera_pos.2
    else if camera_pos.2 + map_size.2 + distance_y ≤ pos.2 + size.2 then
      pos.2 + size.2 - camera_pos.2 - map_size.2
    else
      distance_y
  (dx, dy)

/-- `GameMap.map_size` default value `(1500., 1500.)` (line 63). -/
def gameMapDefaultSize : ℚ × ℚ := (1500, 1500)

/-- C1 counterexample: with camera_pos = (0,0), pos = (0,0), size = (800,600)
and map_size = (1500,1500), `lock_scroll(-50, 0)` does NOT return dx' = 0:
both clamp branches are false for dx = -50 and the delta passes unchanged. -/
theorem c1_lock_scroll_neg_dx_counterexample :
    (lock_scroll (0, 0) gameMapDefaultSize (800, 600) (0, 0) (-50) 0).1 ≠ 0 := by
  norm_num [lock_scroll, gameMapDefaultSize]

/-- C1 (amended): with camera_pos = (0,0), pos = (0,0), size = (800,600) and
map_size = (1500,1500), `lock_scroll(-50, 0)` returns the delta unchanged,
`(-50, 0)`; the map-origin clamp fires for the opposite sign:
`lock_scroll(50, 0)` returns dx' = 0 (the camera cannot scroll past the map
origin in the positive direction). -/
theorem c1_lock_scroll_origin_clamp :
    lock_scroll (0, 0) gameMapDefaultSize (800, 600) (0, 0) (-50) 0 = (-50, 0)
      ∧ lock_scroll (0, 0) gameMapDefaultSize (800, 600) (0, 0) 50 0 = (0, 0) := by
  constructor <;> norm_num [lock_scroll, gameMapDefaultSize]

/-- C4: whenever both branch conditions hold simultaneously on an axis
(possible when the map is smaller than the viewport), the first (`if`)
branch wins: the result on that axis is `pos - camera_pos`; this holds
independently for the x and y axes. -/
theorem c4_first_branch_wins (camera_pos map_size size pos : ℚ × ℚ)
    (distance_x distance_y : ℚ) :
    (camera_pos.1 + distance_x > pos.1 →
      camera_pos.1 + map_size.1 + distance_x ≤ pos.1 + size.1 →
      (lock_scroll camera_pos map_size size pos distance_x distance_y).1
        = pos.1 - camera_pos.1)
      ∧ (camera_pos.2 + distance_y > pos.2 →
          camera_pos.2 + map_size.2 + distance_y ≤ pos.2 + size.2 →
          (lock_scroll camera_pos map_size size pos distance_x distance_y).2
            = pos.2 - camera_pos.2) := by
  constructor
  · intro h1x h2x
    simp only [lock_scroll, if_pos h1x]
  · intro h1y h2y
    simp only [lock_scroll, if_pos h1y]

/-- C4 witness: with a map (100×80) smaller than the viewport (800×600),
an input where both x-axis branch conditions hold while the y conditions
fail gives dx' = pos.x - camera_pos.x, and symmetrically an input where
only the y-axis conditions hold gives dy' = pos.y - camera_pos.y. -/
theorem c4_first_branch_wins_witness :
    (lock_scroll (0, 0) (100, 80) (800, 600) (0, 0) 50 (-1000)).1 = 0
      ∧ (lock_scroll (0, 0) (100, 80) (800, 600) (0, 0) (-1000) 40).2 = 0 := by
  constructor
  · have h := (c4_first_branch_wins (0, 0) (100, 80) (800, 600) (0, 0)
      50 (-1000)).1 (by norm_num) (by norm_num)
    simpa using h
  · have h := (c4_first_branch_wins (0, 0) (100, 80) (800, 600) (0, 0)
      (-1000) 40).2 (by norm_num) (by norm_num)
    simpa using h

/-- C5: when the camera is already within bounds on each axis
(`camera_pos ≤ pos` and `camera_pos + map_size ≥ pos + size`, boundary
cases yielding a zero correction), `lock_scroll(0, 0)` returns `(0, 0)`. -/
theorem c5_clamp_zero_identity (camera_pos map_size size pos : ℚ × ℚ)
    (hx1 : camera_pos.1 ≤ pos.1)
    (hx2 : camera_pos.1 + map_size.1 ≥ pos.1 + size.1)
    (hy1 : camera_pos.2 ≤ pos.2)
    (hy2 : camera_pos.2 + map_size.2 ≥ pos.2 + size.2) :
    lock_scroll camera_pos map_size size pos 0 0 = (0, 0) := by
  simp only [lock_scroll, Prod.mk.injEq]
  constructor
  · split_ifs with h1 h2
    · linarith
    · linarith
    · rfl
  · split_ifs with h1 h2
    · linarith
    · linarith
    · rfl

/-- C5 witness: camera at (-100, 0), map (1500,1500), viewport size
(800,600) at pos (0,0) is strictly within bounds, and a boundary case
camera at (0,0) with map exactly the viewport size. -/
theorem c5_clamp_zero_identity_witness :
    lock_scroll (-100, -100) gameMapDefaultSize (800, 600) (0, 0) 0 0 = (0, 0)
      ∧ lock_scroll (0, 0) (800, 600) (800, 600) (0, 0) 0 0 = (0, 0) :=
  ⟨c5_clamp_zero_identity (-100, -100) gameMapDefaultSize (800, 600) (0, 0)
      (by norm_num) (by norm_num [gameMapDefaultSize]) (by norm_num)
      (by norm_num [gameMapDefaultSize]),
   c5_clamp_zero_identity (0, 0) (800, 600) (800, 600) (0, 0)
      (by norm_num) (by norm_num) (by norm_num) (by norm_num)⟩

/-- A Python class-body attribute value, as far as attribute resolution and
truthiness are concerned: kivy property declarations with their default
values, or a method definition. -/
inductive PyAttr where
  | strProp (s : String)
  | boolProp (b : Bool)
  | listProp2 (v : ℚ × ℚ)
  | numProp (v : Option ℚ)
  | method
deriving DecidableEq

/-- The `GameView` class body (lines 77-156): name bindings in source
order.  `lock_scroll` is bound twice: first to `BooleanProperty(True)`
(line 78), then to the method of the same name (line 140). -/
def gameViewClassBody : List (String × PyAttr) :=
  [ ("system_id", PyAttr.strProp "default_gameview"),
    ("lock_scroll", PyAttr.boolProp true),
    ("camera_pos", PyAttr.listProp2 (0, 0)),
    ("do_scroll", PyAttr.boolProp false),
    ("focus_entity", PyAttr.boolProp false),
    ("entity_to_focus", PyAttr.numProp none),
    ("focus_position_info_from", PyAttr.strProp "cymunk-physics"),
    ("updateable", PyAttr.boolProp true),
    ("paused", PyAttr.boolProp true),
    ("has_camera_updated", PyAttr.boolProp false),
    ("force_camera_update", PyAttr.boolProp false),
    ("on_entity_to_focus", PyAttr.method),
    ("update", PyAttr.method),
    ("on_size", PyAttr.method),
    ("on_camera_pos", PyAttr.method),
    ("on_touch_move", PyAttr.method),
    ("lock_scroll", PyAttr.method) ]

/-- Python class-dict attribute resolution: the last binding of a name in
the class body wins. -/
def classResolve (body : List (String × PyAttr)) (name : String) :
    Option PyAttr :=
  body.foldl (fun acc p => if p.1 = name then some p.2 else acc) none

/-- Python truthiness of a resolved instance attribute: a bound method is
always truthy; a property contributes its default value's truthiness
(empty string, `False`, `None` and `0` are falsy; a 2-element list is
truthy). -/
def isTruthy : PyAttr → Bool
  | PyAttr.strProp s => s != ""
  | PyAttr.boolProp b => b
  | PyAttr.listProp2 _ => true
  | PyAttr.numProp v => v.elim false (fun q => q != 0)
  | PyAttr.method => true

/-- The value of the guard expression `self.lock_scroll` in `GameView`:
truthiness of whatever the name `lock_scroll` resolves to. -/
def lockScrollGuard : Bool :=
  match classResolve gameViewClassBody "lock_scroll" with
  | some a => isTruthy a
  | none => false

/-- The part of a `GameMap` instance the viewport reads: its `map_size`. -/
structure GameMapState where
  map_size : ℚ × ℚ
deriving DecidableEq

/-- The `GameView` instance state used by `update`, `on_size` and
`on_touch_move`.  `position_data` is the focus entity's `position` payload
read from the collaborator system named by `focus_position_info_from`
(the entity is assumed to exist); `currentmap` is
`self.gameworld.currentmap`. -/
structure GameViewState where
  camera_pos : ℚ × ℚ
  pos : ℚ × ℚ
  size : ℚ × ℚ
  currentmap : Option GameMapState
  focus_entity : Bool
  position_data : ℚ × ℚ
  do_scroll : Bool
deriving DecidableEq

/-- `GameView.update` (lines 95-108): when following a focus entity,
compute the re-centering delta, pass it through the clamp when the
`lock_scroll` guard is truthy, and apply it only when
`|dist_x| + |dist_y| >= 1`.  `none` models the `AttributeError` raised
when the clamp dereferences a missing current map. -/
def gameViewUpdate (st : GameViewState) : Option GameViewState :=
  if st.focus_entity then
    let dist_x := -st.camera_pos.1 - st.position_data.1 + st.size.1 * (1/2)
    let dist_y := -st.camera_pos.2 - st.position_data.2 + st.size.2 * (1/2)
    if lockScrollGuard then
      match st.currentmap with
      | none => none
      | some m =>
        let d := lock_scroll st.camera_pos m.map_size st.size st.pos dist_x dist_y
        if |d.1| + |d.2| ≥ 1 then
          some { st with camera_pos := (st.camera_pos.1 + d.1, st.camera_pos.2 + d.2) }
        else some st
    else
      if |dist_x| + |dist_y| ≥ 1 then
        some { st with camera_pos := (st.camera_pos.1 + dist_x, st.camera_pos.2 + dist_y) }
      else some st
  else some st

/-- `GameView.on_size` (lines 111-115): on a viewport resize, when the
`lock_scroll` guard is truthy and a current map exists, re-clamp at zero
delta and apply the correction. -/
def gameViewOnSize (st : GameViewState) : GameViewState :=
  if lockScrollGuard then
    match st.currentmap with
    | none => st
    | some m =>
      let d := lock_scroll st.camera_pos m.map_size st.size st.pos 0 0
      { st with camera_pos := (st.camera_pos.1 + d.1, st.camera_pos.2 + d.2) }
  else st

/-- `GameView.on_touch_move` (lines 129-138): drag scrolling with a 2-unit
noise threshold; the delta is clamped when the `lock_scroll` guard is
truthy and a current map exists, and applied to `camera_pos` either way. -/
def gameViewOnTouchMove (st : GameViewState) (dx dy : ℚ) : GameViewState :=
  if st.do_scroll then
    if |dx| + |dy| > 2 then
      let d :=
        if lockScrollGuard then
          match st.currentmap with
          | none => (dx, dy)
          | some m => lock_scroll st.camera_pos m.map_size st.size st.pos dx dy
        else (dx, dy)
      { st with camera_pos := (st.camera_pos.1 + d.1, st.camera_pos.2 + d.2) }
    else st
  else st

/-- Modelled from the spec words of claim C2: `update` with the computed
delta unconditionally passed through the clamp (no disabling guard). -/
def gameViewUpdateSpec (st : GameViewState) : Option GameViewState :=
  if st.focus_entity then
    let dist_x := -st.camera_pos.1 - st.position_data.1 + st.size.1 * (1/2)
    let dist_y := -st.camera_pos.2 - st.position_data.2 + st.size.2 * (1/2)
    match st.currentmap with
    | none => none
    | some m =>
      let d := lock_scroll st.camera_pos m.map_size st.size st.pos dist_x dist_y
      if |d.1| + |d.2| ≥ 1 then
        some { st with camera_pos := (st.camera_pos.1 + d.1, st.camera_pos.2 + d.2) }
      else some st
  else some st

/-- Modelled from the spec words of claim C2: `on_size` with the re-clamp
applied whenever a current map exists (no disabling guard). -/
def gameViewOnSizeSpec (st : GameViewState) : GameViewState :=
  match st.currentmap with
  | none => st
  | some m =>
    let d := lock_scroll st.camera_pos m.map_size st.size st.pos 0 0
    { st with camera_pos := (st.camera_pos.1 + d.1, st.camera_pos.2 + d.2) }

/-- Modelled from the spec words of claim C2: `on_touch_move` with the drag
delta clamped whenever a current map exists (no disabling guard). -/
def gameViewOnTouchMoveSpec (st : GameViewState) (dx dy : ℚ) : GameViewState :=
  if st.do_scroll then
    if |dx| + |dy| > 2 then
      let d :=
        match st.currentmap with
        | none => (dx, dy)
        | some m => lock_scroll st.camera_pos m.map_size st.size st.pos dx dy
      { st with camera_pos := (st.camera_pos.1 + d.1, st.camera_pos.2 + d.2) }
    else st
  else st

/-- C2: in the `GameView` class body the name `lock_scroll` resolves to the
method (the boolean property of line 78 is shadowed by the method of line
140), so the guard `self.lock_scroll` is truthy, and `update`, `on_size`
and `on_touch_move` behave exactly as if the delta were unconditionally
passed through the clamp: the documented boolean cannot disable clamping. -/
theorem c2_lock_scroll_shadowed_by_method :
    classResolve gameViewClassBody "lock_scroll" = some PyAttr.method
      ∧ lockScrollGuard = true
      ∧ (∀ st, gameViewUpdate st = gameViewUpdateSpec st)
      ∧ (∀ st, gameViewOnSize st = gameViewOnSizeSpec st)
      ∧ (∀ st dx dy, gameViewOnTouchMove st dx dy = gameViewOnTouchMoveSpec st dx dy) := by
  refine ⟨rfl, rfl, fun st => ?_, fun st => ?_, fun st dx dy => ?_⟩
  · simp only [gameViewUpdate, gameViewUpdateSpec,
      show lockScrollGuard = true from rfl, if_true]
  · simp only [gameViewOnSize, gameViewOnSizeSpec,
      show lockScrollGuard = true from rfl, if_true]
  · simp only [gameViewOnTouchMove, gameViewOnTouchMoveSpec,
      show lockScrollGuard = true from rfl, if_true]

/-- C6: in a focus-follow update with a current map present, writing `d`
for the clamped re-centering delta, `camera_pos` is left unchanged when
`|d.1| + |d.2| < 1` and is incremented component-wise by `d` when
`|d.1| + |d.2| ≥ 1`. -/
theorem c6_dead_zone (st : GameViewState) (m : GameMapState)
    (hf : st.focus_entity = true) (hm : st.currentmap = some m) :
    let d := lock_scroll st.camera_pos m.map_size st.size st.pos
      (-st.camera_pos.1 - st.position_data.1 + st.size.1 * (1/2))
      (-st.camera_pos.2 - st.position_data.2 + st.size.2 * (1/2))
    (|d.1| + |d.2| < 1 → gameViewUpdate st = some st)
      ∧ (|d.1| + |d.2| ≥ 1 →
          gameViewUpdate st =
            some { st with
                   camera_pos := (st.camera_pos.1 + d.1, st.camera_pos.2 + d.2) }) := by
  intro d
  unfold gameViewUpdate
  rw [hf, hm, if_pos rfl]
  simp only [show lockScrollGuard = true from rfl, if_true]
  constructor
  · intro h
    rw [if_neg (by exact not_le.mpr h)]
  · intro h
    rw [if_pos h]

/-- A concrete in-dead-zone focus-follow state: camera (0,0), viewport
(800,600) at (0,0), map (1500,1500), focus entity exactly at the viewport
center so the delta is (0,0). -/
def c6StateIdle : GameViewState :=
  { camera_pos := (0, 0), pos := (0, 0), size := (800, 600),
    currentmap := some ⟨(1500, 1500)⟩, focus_entity := true,
    position_data := (400, 300), do_scroll := false }

/-- A concrete out-of-dead-zone focus-follow state: camera (-500,-450),
focus entity at (1000,750) giving a clamped delta of (-100, 0). -/
def c6StateMove : GameViewState :=
  { c6StateIdle with camera_pos := (-500, -450), position_data := (1000, 750) }

/-- C6 witness: on `c6StateIdle` the clamped delta is (0,0), below the
dead-zone threshold, and the camera is unchanged; on `c6StateMove` the
clamped delta is (-100,0) and the camera moves to (-600,-450). -/
theorem c6_dead_zone_witness :
    gameViewUpdate c6StateIdle = some c6StateIdle
      ∧ gameViewUpdate c6StateMove
          = some { c6StateMove with camera_pos := (-600, -450) } := by
  constructor
  · exact (c6_dead_zone c6StateIdle ⟨(1500, 1500)⟩ rfl rfl).1
      (by norm_num [c6StateIdle, lock_scroll])
  · have h := (c6_dead_zone c6StateMove ⟨(1500, 1500)⟩ rfl rfl).2
      (by norm_num [c6StateMove, c6StateIdle, lock_scroll])
    rw [h]
    norm_num [c6StateMove, c6StateIdle, lock_scroll]

/-- A system entry as seen by the `on_camera_pos` cascade loop: its
`renderable` and `active` flags, plus a counter of how many times its
`update(None)` has been invoked by the cascade (for observation). -/
structure SysEntry where
  renderable : Bool
  active : Bool
  updateNoneCount : Nat
deriving DecidableEq

/-- The state read and written by `GameView.on_camera_pos`: the two guard
flags and the world's system collection. -/
structure CamPropState where
  force_camera_update : Bool
  has_camera_updated : Bool
  systems : List SysEntry
deriving DecidableEq

/-- The renderable cascade (lines 121-124): call `update(None)` on every
system whose `renderable` and `active` flags are both set. -/
def cascade (l : List SysEntry) : List SysEntry :=
  l.map (fun s =>
    if s.renderable && s.active then
      { s with updateNoneCount := s.updateNoneCount + 1 }
    else s)

/-- `GameView.on_camera_pos` (lines 117-127): on a `camera_pos` mutation
with `force_camera_update` set, run the cascade and set the guard when the
guard is clear, otherwise just clear the guard. -/
def on_camera_pos (st : CamPropState) : CamPropState :=
  if st.force_camera_update then
    if !st.has_camera_updated then
      { st with systems := cascade st.systems, has_camera_updated := true }
    else
      { st with has_camera_updated := false }
  else st

/-- `n` consecutive `camera_pos` mutations. -/
def iterCameraPos : Nat → CamPropState → CamPropState
  | 0, st => st
  | n + 1, st => iterCameraPos n (on_camera_pos st)

/-- `k` cascades in a row (for stating the parity theorem). -/
def iterCascade : Nat → List SysEntry → List SysEntry
  | 0, l => l
  | k + 1, l => iterCascade k (cascade l)


/-- Parity of the re-entrancy guard over any run of consecutive
`camera_pos` mutations starting with a clear guard and
`force_camera_update` set: after `n` mutations the guard holds exactly
when `n` is odd, and the cascade has run `(n + 1) / 2` times. -/
theorem iterCameraPos_parity (n : Nat) : ∀ sys : List SysEntry,
    iterCameraPos n ⟨true, false, sys⟩
      = ⟨true, n % 2 == 1, iterCascade ((n + 1) / 2) sys⟩ := by
  induction n using Nat.twoStepInduction with
  | zero => intro sys; rfl
  | one => intro sys; rfl
  | more n ih _ =>
    intro sys
    have h1 : iterCameraPos (n + 2) (⟨true, false, sys⟩ : CamPropState)
        = iterCameraPos n ⟨true, false, cascade sys⟩ := rfl
    rw [h1, ih (cascade sys)]
    have h2 : (n + 2) % 2 = n % 2 := by omega
    have h3 : (n + 2 + 1) / 2 = (n + 1) / 2 + 1 := by omega
    have h4 : iterCascade ((n + 1) / 2 + 1) sys
        = iterCascade ((n + 1) / 2) (cascade sys) := rfl
    rw [h2, h3, h4]

/-- C3: with `force_camera_update = true` and `has_camera_updated`
initially false, the first `camera_pos` mutation runs the renderable
cascade (every renderable-and-active system gets an `update(None)` call)
and sets the guard; the second mutation runs no cascade and clears the
guard; the third runs the cascade again; in general, after `n` mutations
the guard holds exactly for odd `n` and the cascade has run
`(n + 1) / 2` times. -/
theorem c3_camera_guard_parity (sys : List SysEntry) :
    on_camera_pos ⟨true, false, sys⟩ = ⟨true, true, cascade sys⟩
      ∧ on_camera_pos (on_camera_pos ⟨true, false, sys⟩)
          = ⟨true, false, cascade sys⟩
      ∧ on_camera_pos (on_camera_pos (on_camera_pos ⟨true, false, sys⟩))
          = ⟨true, true, cascade (cascade sys)⟩
      ∧ (∀ n, iterCameraPos n ⟨true, false, sys⟩
          = ⟨true, n % 2 == 1, iterCascade ((n + 1) / 2) sys⟩) :=
  ⟨rfl, rfl, rfl, fun n => iterCameraPos_parity n sys⟩

/-- A `GameMap` instance as the world sees it: a Python object identity
(distinct instances have distinct identities) and the `active` flag. -/
structure GameMapObj where
  oid : Nat
  active : Bool
deriving DecidableEq

/-- `GameMap.on_add_system` (lines 65-68): the base hook sets
`active = True`, then the map registers itself as the world's current map
(the `if self.gameworld` guard is modelled as a world being present).
Returns the updated map and the updated current-map slot. -/
def gameMapOnAddSystem (m : GameMapObj) (currentmap : Option Nat) :
    GameMapObj × Option Nat :=
  ({ m with active := true }, some m.oid)

/-- `GameMap.on_remove_system` (lines 70-73): the base hook sets
`active = False`, then the current-map slot is cleared only if it still
equals this very instance. -/
def gameMapOnRemoveSystem (m : GameMapObj) (currentmap : Option Nat) :
    GameMapObj × Option Nat :=
  ({ m with active := false },
    if currentmap = some m.oid then none else currentmap)

/-- C7: the current-map slot is last-writer-wins with identity-guarded
clearing: after adding map A then map B, B is current; removing A then
leaves B current (the clear fires only when the slot still equals the
removed map); removing B clears the slot. -/
theorem c7_currentmap_single_slot (a b : Nat) (hab : a ≠ b) :
    let mA : GameMapObj := ⟨a, false⟩
    let mB : GameMapObj := ⟨b, false⟩
    let w1 := (gameMapOnAddSystem mA none).2
    let w2 := (gameMapOnAddSystem mB w1).2
    let w3 := (gameMapOnRemoveSystem mA w2).2
    let w4 := (gameMapOnRemoveSystem mB w3).2
    w2 = some b ∧ w3 = some b ∧ w4 = none := by
  have hba : b ≠ a := Ne.symm hab
  refine ⟨rfl, ?_, ?_⟩ <;>
    simp [gameMapOnRemoveSystem, gameMapOnAddSystem, hba]

/-- C7 witness: the scenario at the concrete identities A = 0, B = 1. -/
theorem c7_currentmap_single_slot_witness :
    (gameMapOnAddSystem ⟨1, false⟩ (gameMapOnAddSystem ⟨0, false⟩ none).2).2
        = some 1
      ∧ (gameMapOnRemoveSystem ⟨0, false⟩
          (gameMapOnAddSystem ⟨1, false⟩
            (gameMapOnAddSystem ⟨0, false⟩ none).2).2).2 = some 1
      ∧ (gameMapOnRemoveSystem ⟨1, false⟩
          (gameMapOnRemoveSystem ⟨0, false⟩
            (gameMapOnAddSystem ⟨1, false⟩
              (gameMapOnAddSystem ⟨0, false⟩ none).2).2).2).2 = none :=
  c7_currentmap_single_slot 0 1 (by decide)

/-- Python `list.remove` as used on line 47: delete the first occurrence
of the value; `none` models the `ValueError` raised when it is absent. -/
def listRemove : List Nat → Nat → Option (List Nat)
  | [], _ => none
  | x :: xs, a => if x = a then some xs else (listRemove xs a).map (fun l => x :: l)

theorem listRemove_eq (l : List Nat) (a : Nat) :
    listRemove l a = if a ∈ l then some (l.erase a) else none := by
  induction l with
  | nil => rfl
  | cons x xs ih =>
    simp only [listRemove]
    by_cases hx : x = a
    · subst hx
      simp [List.erase_cons_head]
    · have hbeq : ¬(x == a) = true := by simpa using hx
      rw [if_neg hx, ih]
      by_cases hm : a ∈ xs
      · rw [if_pos hm, if_pos (List.mem_cons_of_mem x hm),
          List.erase_cons_tail hbeq]
        rfl
      · rw [if_neg hm,
          if_neg (fun h => (List.mem_cons.mp h).elim (fun h1 => hx h1.symm) hm)]
        rfl

/-- The state of one `GameSystem` together with the component slots it
owns inside `gameworld.entities`: `comp j` is `entities[j][system_id]`
(every referenced entity is assumed to exist) and `entity_ids` is the
system's back-reference list (line 20 initialises it to `[]`). -/
structure SysState where
  comp : Nat → Option Nat
  entity_ids : List Nat

/-- `GameSystem.generate_component_data` (lines 28-30): the load hook is
the identity in the base class. -/
def generate_component_data (entity_component_dict : Nat) : Nat :=
  entity_component_dict

/-- `GameSystem.create_component` (lines 32-35): store the transformed
data in the entity's slot for this system and append the id to
`entity_ids` (no presence check of any kind). -/
def create_component (st : SysState) (entity_id d : Nat) : SysState :=
  { comp := fun j =>
      if j = entity_id then some (generate_component_data d) else st.comp j,
    entity_ids := st.entity_ids ++ [entity_id] }

/-- `GameSystem.remove_entity` (lines 46-47): `self.entity_ids.remove(id)`;
`none` models the propagated `ValueError` on an absent id. -/
def remove_entity (st : SysState) (entity_id : Nat) : Option SysState :=
  (listRemove st.entity_ids entity_id).map
    (fun l => { st with entity_ids := l })

/-- C8: removing an absent entity id raises a not-found error propagated
to the caller, and removing a present id removes it from `entity_ids`
(the first occurrence is deleted, so the id's count drops by one). -/
theorem c8_remove_entity_contract (st : SysState) (entity_id : Nat) :
    (entity_id ∉ st.entity_ids → remove_entity st entity_id = none)
      ∧ (entity_id ∈ st.entity_ids →
          remove_entity st entity_id
              = some { st with entity_ids := st.entity_ids.erase entity_id }
            ∧ (st.entity_ids.erase entity_id).count entity_id + 1
                = st.entity_ids.count entity_id) := by
  constructor
  · intro h
    simp [remove_entity, listRemove_eq, h]
  · intro h
    refine ⟨by simp [remove_entity, listRemove_eq, h], ?_⟩
    rw [List.count_erase_self]
    have := List.count_pos_iff.mpr h
    omega

/-- A concrete system state for the C8 witness: ids [1, 2]. -/
def c8State : SysState :=
  { comp := fun _ => none, entity_ids := [1, 2] }

/-- C8 witness: on ids [1, 2], removing 3 raises and removing 1 yields
ids [2]. -/
theorem c8_remove_entity_contract_witness :
    remove_entity c8State 3 = none
      ∧ remove_entity c8State 1 = some { c8State with entity_ids := [2] } := by
  constructor
  · exact (c8_remove_entity_contract c8State 3).1 (by decide)
  · have h := ((c8_remove_entity_contract c8State 1).2 (by decide)).1
    rw [show c8State.entity_ids.erase 1 = [2] from rfl] at h
    exact h

/-- A lifecycle call on a `GameSystem`: `create_component` (with its data
argument) or `remove_entity`. -/
inductive LifecycleOp where
  | create (entity_id d : Nat)
  | remove (entity_id : Nat)
deriving DecidableEq

/-- Run a sequence of lifecycle calls; a failing `remove_entity` aborts
the run (the exception propagates). -/
def runOps (st : SysState) : List LifecycleOp → Option SysState
  | [] => some st
  | LifecycleOp.create i d :: rest => runOps (create_component st i d) rest
  | LifecycleOp.remove i :: rest =>
    match remove_entity st i with
    | none => none
    | some st2 => runOps st2 rest

/-- The error contract of claim C9 as a decidable check: no create for an
id already in `entity_ids`, and every remove for a present id. -/
def validOps (st : SysState) : List LifecycleOp → Bool
  | [] => true
  | LifecycleOp.create i d :: rest =>
    !(st.entity_ids.contains i) && validOps (create_component st i d) rest
  | LifecycleOp.remove i :: rest =>
    st.entity_ids.contains i &&
      match remove_entity st i with
      | none => false
      | some st2 => validOps st2 rest

/-- C9: starting from a duplicate-free `entity_ids`, any sequence of
`create_component` / `remove_entity` calls respecting the contract (no
create for a present id, no remove of an absent id) succeeds and keeps
`entity_ids` duplicate-free at the end (hence, by induction, after each
call). -/
theorem c9_entity_ids_nodup (st : SysState) (ops : List LifecycleOp)
    (hnd : st.entity_ids.Nodup) (hv : validOps st ops = true) :
    ∃ st2, runOps st ops = some st2 ∧ st2.entity_ids.Nodup := by
  induction ops generalizing st with
  | nil => exact ⟨st, rfl, hnd⟩
  | cons op rest ih =>
    cases op with
    | create i d =>
      simp only [validOps, Bool.and_eq_true, Bool.not_eq_true'] at hv
      obtain ⟨hc, hv2⟩ := hv
      have hni : i ∉ st.entity_ids := by
        simpa using hc
      have hnd2 : (create_component st i d).entity_ids.Nodup := by
        simp [create_component, List.nodup_append, hnd, hni]
      exact ih _ hnd2 hv2
    | remove i =>
      have hmem : i ∈ st.entity_ids := by
        by_contra hni
        simp [validOps] at hv
        exact hni hv.1
      have hre : remove_entity st i
          = some { st with entity_ids := st.entity_ids.erase i } := by
        simp [remove_entity, listRemove_eq, hmem]
      simp only [validOps, hre, Bool.and_eq_true] at hv
      simp only [runOps, hre]
      exact ih _ (hnd.erase i) hv.2

/-- The empty initial system state of `GameSystem.__init__` (line 20). -/
def c9InitState : SysState :=
  { comp := fun _ => none, entity_ids := [] }

/-- A concrete contract-respecting call sequence for the C9 witness. -/
def c9Ops : List LifecycleOp :=
  [LifecycleOp.create 1 5, LifecycleOp.create 2 6, LifecycleOp.remove 1,
   LifecycleOp.create 3 7]

/-- C9 witness: the sequence create 1, create 2, remove 1, create 3 from
the empty state succeeds with a duplicate-free id list. -/
theorem c9_entity_ids_nodup_witness :
    ∃ st2, runOps c9InitState c9Ops = some st2 ∧ st2.entity_ids.Nodup :=
  c9_entity_ids_nodup c9InitState c9Ops (by decide) (by decide)

/-- C10: calling `create_component` again for an entity id that already
has a component for this system raises no error (the call is total by
construction): the stored component is overwritten with the newly
transformed data and the id is appended to `entity_ids` a second time,
leaving a duplicate entry (its count reaches at least 2). -/
theorem c10_duplicate_create (st : SysState) (entity_id d d0 : Nat)
    (hc : st.comp entity_id = some d0) (hm : entity_id ∈ st.entity_ids) :
    (create_component st entity_id d).comp entity_id
        = some (generate_component_data d)
      ∧ (create_component st entity_id d).entity_ids
          = st.entity_ids ++ [entity_id]
      ∧ 2 ≤ (create_component st entity_id d).entity_ids.count entity_id := by
  refine ⟨by simp [create_component], rfl, ?_⟩
  simp only [create_component, List.count_append]
  have h1 := List.count_pos_iff.mpr hm
  have h2 : List.count entity_id [entity_id] = 1 := by simp
  omega

/-- A concrete system state for the C10 witness: entity 1 already has
component data 9 and appears in `entity_ids`. -/
def c10State : SysState :=
  { comp := fun j => if j = 1 then some 9 else none, entity_ids := [1] }

/-- C10 witness: re-creating entity 1's component with data 7 overwrites
the slot, appends 1 again and leaves a duplicate. -/
theorem c10_duplicate_create_witness :
    (create_component c10State 1 7).comp 1 = some (generate_component_data 7)
      ∧ (create_component c10State 1 7).entity_ids = [1] ++ [1]
      ∧ 2 ≤ (create_component c10State 1 7).entity_ids.count 1 :=
  c10_duplicate_create c10State 1 7 9 (by simp [c10State]) (by simp [c10State])
